import Mathlib

/-!
Shallow embedding of the BoFire tutorial notebooks
(`tutorials/basic_examples/Reaction_Optimization_Example.ipynb` and
`tutorials/benchmarks/012-BNH.ipynb`) together with proofs about the
notebook-defined code: the toy reaction-yield simulator
(`calc_volume_fact`, `calc_rhofact`, `calc_Tfact`, `create_experiments`,
`create_candidates`, `evaluate_experiments`), the BNH `hypervolume`
metric wrapper, the SMOKE_TEST iteration budgets and the ask/tell
optimization loop.

Python floats are modelled as real numbers, pandas DataFrames as lists
of rows (plus an explicit index), numpy vectorized arithmetic as
`List.map` / `List.zipWith`, dictionary / label lookups as association
list lookups returning `Option` (with `none` standing for an uncaught
`KeyError` / `AttributeError` / `IndexError`), and `np.random` draws as
an abstract random source passed explicitly.
-/

namespace ReactionTutorial

/-! ## Features and domains (the external library's data model, as used
by the notebook: only the attributes the notebook code reads). -/

/-- An input feature of a BoFire domain, as used by the notebook:
either a `ContinuousInput` (with `bounds=[lower, upper]`) or a
`CategoricalInput` (with its category list). -/
inductive InputFeature where
  | continuous (key : String) (lb ub : ℝ)
  | categorical (key : String) (cats : List String)

/-- The `key` attribute, present on every feature. -/
def InputFeature.key : InputFeature → String
  | .continuous k _ _ => k
  | .categorical k _ => k

/-- The `lower_bound` attribute of a feature; accessing it on a
categorical feature raises `AttributeError`, modelled as `none`. -/
def InputFeature.lower_bound : InputFeature → Option ℝ
  | .continuous _ lb _ => some lb
  | .categorical _ _ => none

/-- The `upper_bound` attribute of a feature; accessing it on a
categorical feature raises `AttributeError`, modelled as `none`. -/
def InputFeature.upper_bound : InputFeature → Option ℝ
  | .continuous _ _ ub => some ub
  | .categorical _ _ => none

/-- The `categories` attribute of a feature; accessing it on a
continuous feature raises `AttributeError`, modelled as `none`. -/
def InputFeature.categories : InputFeature → Option (List String)
  | .continuous _ _ _ => none
  | .categorical _ cs => some cs

/-- An output feature (`ContinuousOutput`); the notebook code only
reads its `key`. -/
structure OutputFeature where
  key : String

/-- A BoFire `Domain`, as used by the notebook code: a list of input
features and a list of output features. -/
structure Domain where
  inputs : List InputFeature
  outputs : List OutputFeature

/-- Source: `domain.inputs.get_by_key(key)`: the first input feature with the
given key; a missing key raises `KeyError`, modelled as `none`. -/
def Domain.inputs_get_by_key (d : Domain) (key : String) : Option InputFeature :=
  d.inputs.find? fun f => f.key == key

/-- Source: `domain.outputs.get_by_key(key)`: the first output feature with the
given key; a missing key raises `KeyError`, modelled as `none`. -/
def Domain.outputs_get_by_key (d : Domain) (key : String) : Option OutputFeature :=
  d.outputs.find? fun f => f.key == key

/-- The solvent categories declared by the notebook's
`CategoricalInput(key="Solvent Type", categories=["MeOH", "THF", "Dioxane"])`. -/
def solventCategories : List String := ["MeOH", "THF", "Dioxane"]

/-- The reaction optimization domain constructed in the notebook:
`Temperature` in `[0, 60]`, `Solvent Type` categorical, `Solvent Volume`
in `[20, 90]`, and the `Yield` output. -/
noncomputable def reactionDomain : Domain where
  inputs := [.continuous "Temperature" 0 60,
             .categorical "Solvent Type" solventCategories,
             .continuous "Solvent Volume" 20 90]
  outputs := [⟨"Yield"⟩]

/-! ## Module-level data of the reaction notebook's util cell. -/

noncomputable def T0 : ℝ := 25

noncomputable def T1 : ℝ := 100

/-- Source: `e0 = np.exp((T1 + 0) / T0)`. -/
noncomputable def e0 : ℝ := Real.exp ((T1 + 0) / T0)

/-- Source: `e60 = np.exp((T1 + 60) / T0)`. -/
noncomputable def e60 : ℝ := Real.exp ((T1 + 60) / T0)

/-- Source: `de = e60 - e0`. -/
noncomputable def de : ℝ := e60 - e0

/-- The `boiling_points` dict (in °C). -/
noncomputable def boiling_points : List (String × ℝ) :=
  [("MeOH", 64.7), ("THF", 66.0), ("Dioxane", 101.0)]

/-- The `density` dict (in kg/l). -/
noncomputable def density : List (String × ℝ) :=
  [("MeOH", 0.792), ("THF", 0.886), ("Dioxane", 1.03)]

/-- The `solvent_descriptors` DataFrame, built from the two dicts. -/
structure SolventDescriptorsTable where
  boiling_points : List (String × ℝ)
  density : List (String × ℝ)

/-- Source: `solvent_descriptors = pd.DataFrame(descs)`. -/
noncomputable def solvent_descriptors : SolventDescriptorsTable :=
  ⟨boiling_points, density⟩

/-! ## DataFrames of the reaction notebook, as lists of rows. -/

/-- One row of a candidates DataFrame: the three input columns
`Temperature`, `Solvent Volume`, `Solvent Type`. -/
structure CandRow where
  Temperature : ℝ
  SolventVolume : ℝ
  SolventType : String

/-- One row of the experiments DataFrame produced by
`create_experiments`: the three input columns plus `Yield` and
`valid_Yield`. -/
structure ExpRow where
  Temperature : ℝ
  SolventVolume : ℝ
  Yield : ℝ
  SolventType : String
  valid_Yield : ℝ

/-- The experiments DataFrame: its rows together with its index
(the code sets `samples.index = pd.RangeIndex(nsamples)`). -/
structure ExpTable where
  rows : List ExpRow
  index : List Nat

/-- A candidates DataFrame with an index, as returned by
`create_candidates` (the column drop keeps the index). -/
structure CandTable where
  rows : List CandRow
  index : List Nat

/-- Source: `np.random`, modelled as an abstract source of draws:
`uniform lo hi call k` is element `k` of the vector returned by the
`call`-th `np.random.uniform(low=lo, high=hi, size=(n,))` of
`create_experiments`, and `randint lo hi k` is the value of the `k`-th
`np.random.randint(lo, hi)` call of the list comprehension. -/
structure RNG where
  uniform : ℝ → ℝ → Nat → Nat → ℝ
  randint : Nat → Nat → Nat → Nat

/-! ## The toy reaction simulator. -/

/-- Source: `calc_volume_fact(V)`:
`x = (V - 20) / 70; x = 0.5 + (x - 0.75) * 0.1 + (x - 0.4) ** 2`. -/
noncomputable def calc_volume_fact (V : ℝ) : ℝ :=
  let x := (V - 20) / 70
  0.5 + (x - 0.75) * 0.1 + (x - 0.4) ^ 2

/-- Source: `calc_Tfact` with the module globals (`T0`, `T1`, `e0`, `de`)
passed explicitly, for the explicit-state embedding. -/
noncomputable def calc_TfactWith (t0 t1 ee dd : ℝ) (T : ℝ) : ℝ :=
  (Real.exp ((t1 + T) / t0) - ee) / dd

/-- Source: `calc_Tfact(T)`: `x = np.exp((T1 + T) / T0); return (x - e0) / de`. -/
noncomputable def calc_Tfact (T : ℝ) : ℝ :=
  calc_TfactWith T0 T1 e0 de T

/-- The pandas label lookup `solvent_descriptors["density"][solvent_type]`
for a vector of labels, with the table passed explicitly: `none` models
the `KeyError` raised on a missing label. -/
noncomputable def lookupDensitiesWith (tbl : List (String × ℝ)) :
    List String → Option (List ℝ)
  | [] => some []
  | s :: ss => do
      let d ← tbl.lookup s
      let ds ← lookupDensitiesWith tbl ss
      pure (d :: ds)

/-- Source: `calc_rhofact` with the module-global `solvent_descriptors["density"]`
column passed explicitly:
`x = solvent_descriptors["density"][solvent_type]`;
`x = (1.5 - x) * (Tfact + 0.5) / 2; return x.values`. -/
noncomputable def calc_rhofactWith (tbl : List (String × ℝ))
    (solvent_type : List String) (Tfact : List ℝ) : Option (List ℝ) :=
  (lookupDensitiesWith tbl solvent_type).map fun xs =>
    List.zipWith (fun x tf => (1.5 - x) * (tf + 0.5) / 2) xs Tfact

/-- Source: `calc_rhofact(solvent_type, Tfact)`, reading the module-global
`solvent_descriptors` table. -/
noncomputable def calc_rhofact (solvent_type : List String) (Tfact : List ℝ) :
    Option (List ℝ) :=
  calc_rhofactWith solvent_descriptors.density solvent_type Tfact

/-- The list comprehension
`[domain.inputs.get_by_key("Solvent Type").categories[np.random.randint(0, 3)]
for i in range(nsamples)]`, over the index list `range(nsamples)`;
`none` models the `IndexError` of an out-of-range list index. -/
noncomputable def buildSolvents (rng : RNG) (cats : List String) :
    List Nat → Option (List String)
  | [] => some []
  | k :: ks => do
      let c ← cats[rng.randint 0 3 k]?
      let cs ← buildSolvents rng cats ks
      pure (c :: cs)

/-- The `pd.DataFrame({...})` construction of `create_experiments`:
zip the equal-length columns `T`, `V`, `y`, `solvent_types` and
`np.ones(nsamples)` (the constant-1 `valid_Yield` column) into rows. -/
noncomputable def mkRows : List ℝ → List ℝ → List ℝ → List String → List ExpRow
  | T :: Ts, V :: Vs, y :: ys, s :: ss => ⟨T, V, y, s, 1⟩ :: mkRows Ts Vs ys ss
  | _, _, _, _ => []

/-- Source: `create_experiments(domain, nsamples=100, A=25, B=90, candidates=None)`,
with the module globals read by `calc_Tfact` / `calc_rhofact` passed
explicitly (`Tfactf`, `densTbl`) so that the same body serves the plain
and the explicit-module-state embeddings. `none` models an uncaught
exception from a lookup. -/
noncomputable def create_experimentsWith (Tfactf : ℝ → ℝ)
    (densTbl : List (String × ℝ)) (domain : Domain) (rng : RNG)
    (nsamples : Nat) (A B : ℝ) (candidates : Option (List CandRow)) :
    Option ExpTable := do
  let Tf ← domain.inputs_get_by_key "Temperature"
  let Vf ← domain.inputs_get_by_key "Solvent Volume"
  let typef ← domain.inputs_get_by_key "Solvent Type"
  let _yf ← domain.outputs_get_by_key "Yield"
  let (nsamples, T, V, solvent_types) ←
    (match candidates with
     | none => do
        let lowT ← Tf.lower_bound
        let highT ← Tf.upper_bound
        let lowV ← Vf.lower_bound
        let highV ← Vf.upper_bound
        let cats ← typef.categories
        let T := (List.range nsamples).map fun k => rng.uniform lowT highT 0 k
        let V := (List.range nsamples).map fun k => rng.uniform lowV highV 1 k
        let solvent_types ← buildSolvents rng cats (List.range nsamples)
        pure ((nsamples, T, V, solvent_types) : Nat × List ℝ × List ℝ × List String)
     | some cs =>
        pure (cs.length, cs.map (·.Temperature), cs.map (·.SolventVolume),
          cs.map (·.SolventType)))
  let Tfact := T.map Tfactf
  let rhofact ← calc_rhofactWith densTbl solvent_types Tfact
  let Vfact := V.map calc_volume_fact
  let y := List.zipWith (fun a b => A * a + B * b) Tfact rhofact
  let y := List.zipWith (fun a b => 0.5 * a + 0.5 * a * b) y Vfact
  pure { rows := mkRows T V y solvent_types, index := List.range nsamples }

/-- Source: `create_experiments`, reading the actual module globals. -/
noncomputable def create_experiments (domain : Domain) (rng : RNG)
    (nsamples : Nat) (A B : ℝ) (candidates : Option (List CandRow)) :
    Option ExpTable :=
  create_experimentsWith calc_Tfact solvent_descriptors.density domain rng
    nsamples A B candidates

/-- Source: `experiments.drop(["Yield", "valid_Yield"], axis=1)`: the same table
without the `Yield` and `valid_Yield` columns, index kept. -/
def dropYieldColumns (t : ExpTable) : CandTable :=
  ⟨t.rows.map fun r => ⟨r.Temperature, r.SolventVolume, r.SolventType⟩, t.index⟩

/-- Source: `create_candidates(domain, nsamples=4)`: random experiments with the
`Yield` and `valid_Yield` columns dropped (defaults `A=25`, `B=90`). -/
noncomputable def create_candidates (domain : Domain) (rng : RNG)
    (nsamples : Nat) : Option CandTable :=
  (create_experiments domain rng nsamples 25 90 none).map dropYieldColumns

/-- Source: `evaluate_experiments(domain, candidates)`: `create_experiments`
with the given candidates and all defaults (`nsamples=100`, `A=25`,
`B=90`). -/
noncomputable def evaluate_experiments (domain : Domain) (rng : RNG)
    (candidates : List CandRow) : Option ExpTable :=
  create_experiments domain rng 100 25 90 (some candidates)

/-! ## Explicit module-state embedding (for the frame property).

The util cell's module-level bindings (`T0`, `T1`, `e0`, `e60`, `de`,
`solvent_descriptors`) are gathered in a state record that is threaded
through the simulator; the notebook functions only ever read these
globals (the source contains no assignment to them), so each function
returns the state it was given. -/

/-- The module-level state read by the simulator functions. -/
structure ModuleState where
  T0 : ℝ
  T1 : ℝ
  e0 : ℝ
  e60 : ℝ
  de : ℝ
  solvent_descriptors : SolventDescriptorsTable

/-- The module state right after the util cell has run. -/
noncomputable def initialModuleState : ModuleState :=
  ⟨T0, T1, e0, e60, de, solvent_descriptors⟩

/-- Source: `calc_Tfact` reading its globals from an explicit module state. -/
noncomputable def calc_TfactS (st : ModuleState) (T : ℝ) : ℝ × ModuleState :=
  (calc_TfactWith st.T0 st.T1 st.e0 st.de T, st)

/-- Source: `calc_rhofact` reading its globals from an explicit module state. -/
noncomputable def calc_rhofactS (st : ModuleState) (solvent_type : List String)
    (Tfact : List ℝ) : Option (List ℝ) × ModuleState :=
  (calc_rhofactWith st.solvent_descriptors.density solvent_type Tfact, st)

/-- Source: `create_experiments` reading its globals from an explicit module
state: the source contains no global assignment, so the outgoing state
is the incoming one. -/
noncomputable def create_experimentsS (st : ModuleState) (domain : Domain)
    (rng : RNG) (nsamples : Nat) (A B : ℝ)
    (candidates : Option (List CandRow)) : Option ExpTable × ModuleState :=
  (create_experimentsWith (fun T => (calc_TfactS st T).1)
    st.solvent_descriptors.density domain rng nsamples A B candidates, st)

/-- Source: `evaluate_experiments` over the explicit module state. -/
noncomputable def evaluate_experimentsS (st : ModuleState) (domain : Domain)
    (rng : RNG) (candidates : List CandRow) : Option ExpTable × ModuleState :=
  create_experimentsS st domain rng 100 25 90 (some candidates)

/-! ## Exception-propagation embedding.

To state that the notebook functions implement no error recovery, the
underlying fallible calls (feature lookups, attribute accesses, the
density label lookup, list indexing) are abstracted into an environment
whose calls return `Except ε`; the notebook functions are re-expressed
as plain `bind` chains over that environment, mirroring the Python
call structure, and one proves that any error they return is exactly an
error returned by one of the underlying calls. -/

/-- The underlying (external-library or interpreter) operations invoked
by the notebook functions, each allowed to fail. -/
structure SimEnv (ε : Type) where
  getInput : String → Except ε InputFeature
  getOutput : String → Except ε OutputFeature
  getDensity : String → Except ε ℝ
  lowerBound : InputFeature → Except ε ℝ
  upperBound : InputFeature → Except ε ℝ
  categoriesOf : InputFeature → Except ε (List String)
  catAt : List String → Nat → Except ε String
  uniform : ℝ → ℝ → Nat → Nat → ℝ
  randint : Nat → Nat → Nat → Nat

/-- Predicate: `e` is an error actually returned by one of the environment's
underlying calls. -/
def SimEnv.raises {ε : Type} (env : SimEnv ε) (e : ε) : Prop :=
  (∃ k, env.getInput k = .error e) ∨ (∃ k, env.getOutput k = .error e) ∨
  (∃ s, env.getDensity s = .error e) ∨ (∃ f, env.lowerBound f = .error e) ∨
  (∃ f, env.upperBound f = .error e) ∨ (∃ f, env.categoriesOf f = .error e) ∨
  (∃ l i, env.catAt l i = .error e)

/-- The density label lookup of `calc_rhofact`, over the environment. -/
def lookupDensitiesE {ε : Type} (env : SimEnv ε) :
    List String → Except ε (List ℝ)
  | [] => .ok []
  | s :: ss => do
      let d ← env.getDensity s
      let ds ← lookupDensitiesE env ss
      pure (d :: ds)

/-- Source: `calc_rhofact(solvent_type, Tfact)` over the environment. -/
noncomputable def calc_rhofactE {ε : Type} (env : SimEnv ε)
    (solvent_type : List String) (Tfact : List ℝ) : Except ε (List ℝ) :=
  (lookupDensitiesE env solvent_type).map fun xs =>
    List.zipWith (fun x tf => (1.5 - x) * (tf + 0.5) / 2) xs Tfact

/-- The solvent-picking list comprehension over the environment. -/
def buildSolventsE {ε : Type} (env : SimEnv ε) (cats : List String) :
    List Nat → Except ε (List String)
  | [] => .ok []
  | k :: ks => do
      let c ← env.catAt cats (env.randint 0 3 k)
      let cs ← buildSolventsE env cats ks
      pure (c :: cs)

/-- Source: `create_experiments` over the environment. -/
noncomputable def create_experimentsE {ε : Type} (env : SimEnv ε)
    (nsamples : Nat) (A B : ℝ) (candidates : Option (List CandRow)) :
    Except ε ExpTable := do
  let Tf ← env.getInput "Temperature"
  let Vf ← env.getInput "Solvent Volume"
  let typef ← env.getInput "Solvent Type"
  let _yf ← env.getOutput "Yield"
  let (nsamples, T, V, solvent_types) ←
    (match candidates with
     | none => do
        let lowT ← env.lowerBound Tf
        let highT ← env.upperBound Tf
        let lowV ← env.lowerBound Vf
        let highV ← env.upperBound Vf
        let cats ← env.categoriesOf typef
        let T := (List.range nsamples).map fun k => env.uniform lowT highT 0 k
        let V := (List.range nsamples).map fun k => env.uniform lowV highV 1 k
        let solvent_types ← buildSolventsE env cats (List.range nsamples)
        pure ((nsamples, T, V, solvent_types) : Nat × List ℝ × List ℝ × List String)
     | some cs =>
        pure (cs.length, cs.map (·.Temperature), cs.map (·.SolventVolume),
          cs.map (·.SolventType)))
  let Tfact := T.map calc_Tfact
  let rhofact ← calc_rhofactE env solvent_types Tfact
  let Vfact := V.map calc_volume_fact
  let y := List.zipWith (fun a b => A * a + B * b) Tfact rhofact
  let y := List.zipWith (fun a b => 0.5 * a + 0.5 * a * b) y Vfact
  pure { rows := mkRows T V y solvent_types, index := List.range nsamples }

/-- Source: `create_candidates` over the environment. -/
noncomputable def create_candidatesE {ε : Type} (env : SimEnv ε)
    (nsamples : Nat) : Except ε CandTable :=
  (create_experimentsE env nsamples 25 90 none).map dropYieldColumns

/-- Source: `evaluate_experiments` over the environment. -/
noncomputable def evaluate_experimentsE {ε : Type} (env : SimEnv ε)
    (candidates : List CandRow) : Except ε ExpTable :=
  create_experimentsE env 100 25 90 (some candidates)

/-! ## The SMOKE_TEST-guarded SOBO optimization loop.

```
experimental_budget = 10
i = 0
done = False if not SMOKE_TEST else True
while not done:
    i += 1
    new_candidate = sobo_strategy.ask(1)
    new_experiment = evaluate_experiments(domain, new_candidate)
    sobo_strategy.tell(new_experiment)
    if i > experimental_budget:
        done = True
```
-/

def experimental_budget : Nat := 10

/-- The loop's control skeleton: from counter `i` and flag `done`,
with explicit fuel (the Python loop is unbounded; any fuel of at least
11 suffices, as proved below), returning the final value of `i`, i.e.
the number of executed loop bodies when started from `i = 0`. -/
def reactionLoop : Nat → Nat → Bool → Nat
  | 0, i, _ => i
  | fuel + 1, i, done =>
      if done then i
      else reactionLoop fuel (i + 1) (decide (experimental_budget < i + 1))

/-- The SOBO strategy held by the loop, abstract: `ask n` proposes `n`
candidate rows from the strategy state, `tell` feeds an experiments
table back into the state. -/
structure SoboStrategy (σ : Type) where
  ask : Nat → σ → List CandRow
  tell : σ → ExpTable → σ

/-- Observable interaction events of the optimization loop. -/
inductive LoopEvent where
  | askEv (cs : List CandRow)
  | tellEv (t : ExpTable)

/-- The sequence of ask/tell events emitted by the loop body
(`new_candidate = ask(1)`; `new_experiment = evaluate_experiments(...)`;
`tell(new_experiment)`), with explicit fuel; `none` models an uncaught
exception from `evaluate_experiments`. -/
noncomputable def soboLoopTrace {σ : Type} (S : SoboStrategy σ) (rng : RNG)
    (domain : Domain) : Nat → Nat → Bool → σ → Option (List LoopEvent)
  | 0, _, _, _ => some []
  | fuel + 1, i, done, s =>
      if done then some []
      else do
        let new_candidate := S.ask 1 s
        let new_experiment ← evaluate_experiments domain rng new_candidate
        let s2 := S.tell s new_experiment
        let rest ← soboLoopTrace S rng domain fuel (i + 1)
          (decide (experimental_budget < i + 1)) s2
        pure (.askEv new_candidate :: .tellEv new_experiment :: rest)

/-- A trace follows the ask/tell pattern: events come in adjacent
pairs, each `ask` proposes exactly one candidate, and the immediately
following `tell` carries precisely the simulator's evaluation of that
candidate. -/
inductive AskTellAlt (rng : RNG) (domain : Domain) : List LoopEvent → Prop
  | nil : AskTellAlt rng domain []
  | step (cs : List CandRow) (t : ExpTable) (rest : List LoopEvent) :
      cs.length = 1 →
      evaluate_experiments domain rng cs = some t →
      AskTellAlt rng domain rest →
      AskTellAlt rng domain (.askEv cs :: .tellEv t :: rest)

/-! ## Helper definitions for the statements and proofs. -/

/-- The density value of a solvent as used by `calc_rhofact` (defaulting
to `0` for unknown labels; all uses are guarded by membership in
`solventCategories`). -/
noncomputable def densityVal (s : String) : ℝ :=
  ((solvent_descriptors.density).lookup s).getD 0

/-- Rowwise closed form of the row `create_experiments` computes for a
candidate row: the code's yield
`y = A * Tfact + B * rhofact; y = 0.5 * y + 0.5 * y * Vfact`,
a `valid_Yield` of `1`, and the inputs copied through. -/
noncomputable def expRowOf (A B : ℝ) (r : CandRow) : ExpRow :=
  let Tfact := calc_Tfact r.Temperature
  let rhofact := (1.5 - densityVal r.SolventType) * (Tfact + 0.5) / 2
  let Vfact := calc_volume_fact r.SolventVolume
  let y := A * Tfact + B * rhofact
  ⟨r.Temperature, r.SolventVolume, 0.5 * y + 0.5 * y * Vfact, r.SolventType, 1⟩

/-- Stated from the words of claim C1 (not from the code):
`Tfact = (exp((100+T)/25) - exp(100/25)) / (exp(160/25) - exp(100/25))`. -/
noncomputable def specTfact (T : ℝ) : ℝ :=
  (Real.exp ((100 + T) / 25) - Real.exp (100 / 25)) /
    (Real.exp (160 / 25) - Real.exp (100 / 25))

/-- Stated from the words of claim C1: density `MeOH=0.792`,
`THF=0.886`, `Dioxane=1.03`. -/
noncomputable def specDensity (S : String) : ℝ :=
  if S = "MeOH" then 0.792 else if S = "THF" then 0.886
  else if S = "Dioxane" then 1.03 else 0

/-- Stated from the words of claim C1:
`rhofact = (1.5 - density(S)) * (Tfact + 0.5) / 2`. -/
noncomputable def specRhofact (S : String) (Tfact : ℝ) : ℝ :=
  (1.5 - specDensity S) * (Tfact + 0.5) / 2

/-- Stated from the words of claim C1:
`Vfact = 0.5 + ((V-20)/70 - 0.75)*0.1 + ((V-20)/70 - 0.4)^2`. -/
noncomputable def specVfact (V : ℝ) : ℝ :=
  0.5 + ((V - 20) / 70 - 0.75) * 0.1 + ((V - 20) / 70 - 0.4) ^ 2

/-- Stated from the words of claim C1: the Yield value
`0.5 * y * (1 + Vfact)` with `y = 25 * Tfact + 90 * rhofact`. -/
noncomputable def specYieldC1 (T V : ℝ) (S : String) : ℝ :=
  0.5 * (25 * specTfact T + 90 * specRhofact S (specTfact T)) * (1 + specVfact V)

/-- Every error of `x` satisfies `Q` (used to show error propagation:
errors of a `bind` chain are exactly errors of the underlying calls). -/
def ErrFrom {ε α : Type} (Q : ε → Prop) (x : Except ε α) : Prop :=
  ∀ e, x = .error e → Q e

/-! ## Concrete fixtures used by the witness theorems. -/

/-- A concrete random source: every uniform draw returns the lower
bound, every randint returns its lower bound. -/
noncomputable def wRNG : RNG :=
  ⟨fun lo _ _ _ => lo, fun lo _ _ => lo⟩

/-- A concrete candidate row inside the reaction domain. -/
noncomputable def wRow : CandRow := ⟨0, 20, "MeOH"⟩

/-- A concrete strategy: `ask n` proposes `n` copies of `wRow`,
`tell` ignores the outcome. -/
noncomputable def trivStrategy : SoboStrategy Unit :=
  ⟨fun n _ => List.replicate n wRow, fun _ _ => ()⟩

/-- A concrete environment whose underlying calls all succeed. -/
noncomputable def envOK : SimEnv Nat where
  getInput k := .ok (.continuous k 0 1)
  getOutput k := .ok ⟨k⟩
  getDensity _ := .ok 1
  lowerBound _ := .ok 0
  upperBound _ := .ok 1
  categoriesOf _ := .ok ["MeOH"]
  catAt l i := .ok (l.getD i "MeOH")
  uniform lo _ _ _ := lo
  randint lo _ _ := lo

/-- A concrete environment whose input-feature lookup fails with
error code `42`. -/
noncomputable def envBad : SimEnv Nat :=
  { envOK with getInput := fun _ => .error 42 }

end ReactionTutorial

namespace BnhBenchmark

/-! ## The BNH benchmark notebook (`tutorials/benchmarks/012-BNH.ipynb`). -/

/-- The experiments DataFrame seen by the `hypervolume` metric: its
column labels and its rows; a row assigns a (rational) value to each
column label. -/
structure Experiments where
  cols : List String
  rows : List (String → ℚ)

/-- Source: `ref_point={"f1": 140, "f2": 50}`. -/
def bnh_ref_point : List (String × ℚ) := [("f1", 140), ("f2", 50)]

/-- The row mask `(experiments.c1 <= 25) & (experiments.c2 >= 7.7)`. -/
def bnhFeasible (r : String → ℚ) : Bool :=
  decide (r "c1" ≤ 25) && decide (7.7 ≤ r "c2")

/-- The notebook's `hypervolume(domain, experiments)` metric, with the
external library's `compute_hypervolume` and its domain type kept
abstract: if a `c1` column is present, only the mask-selected rows are
passed on, otherwise all rows are. -/
def hypervolume {D R : Type}
    (compute_hypervolume : D → List (String → ℚ) → List (String × ℚ) → R)
    (domain : D) (experiments : Experiments) : R :=
  if "c1" ∈ experiments.cols then
    compute_hypervolume domain (experiments.rows.filter bnhFeasible) bnh_ref_point
  else
    compute_hypervolume domain experiments.rows bnh_ref_point

/-- Source: `n_iterations=50 if not SMOKE_TEST else 1` in the RandomStrategy
`run` invocation. -/
def bnh_random_n_iterations (smoke_test : Bool) : Nat :=
  if !smoke_test then 50 else 1

/-- Source: `n_iterations=50 if not SMOKE_TEST else 1` in the unconstrained
MOBO `run` invocation. -/
def bnh_mobo_n_iterations (smoke_test : Bool) : Nat :=
  if !smoke_test then 50 else 1

/-- Source: `n_iterations=50 if not SMOKE_TEST else 1` in the constrained MOBO
`run` invocation. -/
def bnh_constrained_n_iterations (smoke_test : Bool) : Nat :=
  if !smoke_test then 50 else 1

/-! ### Concrete fixtures used by the witness theorems. -/

/-- A stand-in for the external `compute_hypervolume`: counts the rows
it is handed (enough to observe which rows are passed). -/
def chvCount : Unit → List (String → ℚ) → List (String × ℚ) → Nat :=
  fun _ rows _ => rows.length

/-- A row satisfying `c1 <= 25` and `c2 >= 7.7`. -/
def wBnhRow1 : String → ℚ :=
  fun k => if k = "c1" then 10 else if k = "c2" then 9 else 0

/-- A row violating `c1 <= 25`. -/
def wBnhRow2 : String → ℚ :=
  fun k => if k = "c1" then 100 else if k = "c2" then 9 else 0

/-- A concrete experiments table containing a `c1` column. -/
def wBnhExperiments1 : Experiments :=
  ⟨["f1", "f2", "c1", "c2"], [wBnhRow1, wBnhRow2]⟩

/-- A concrete experiments table without a `c1` column. -/
def wBnhExperiments2 : Experiments :=
  ⟨["f1", "f2"], [wBnhRow1, wBnhRow2]⟩

end BnhBenchmark



/-! # Theorems -/

namespace ReactionTutorial

/-- Claim C2: the toy simulator is deterministic when given candidates:
for every domain and candidates list, `evaluate_experiments` does not
consult the random source at all, so two calls (with arbitrarily
different random states) return equal DataFrames; the result is a
function of the Temperature, Solvent Volume and Solvent Type columns
alone. -/
theorem evaluate_experiments_deterministic (domain : Domain)
    (c : List CandRow) (rng1 rng2 : RNG) :
    evaluate_experiments domain rng1 c = evaluate_experiments domain rng2 c :=
  rfl

/-- Claim C6: the toy simulator has no state: run over the explicit
module state, `evaluate_experiments` returns that state unchanged (the
source assigns to none of `T0`, `T1`, `e0`, `e60`, `de`,
`solvent_descriptors`), and the value it returns is exactly the pure
function of the immutable inputs, with domain and candidates passed
by value and only a fresh table produced. -/
theorem evaluate_experiments_frame (st : ModuleState) (domain : Domain)
    (rng : RNG) (c : List CandRow) :
    (evaluate_experimentsS st domain rng c).2 = st ∧
    (evaluate_experimentsS initialModuleState domain rng c).1 =
      evaluate_experiments domain rng c :=
  ⟨rfl, rfl⟩

/-- The loop body is never entered once `done` holds. -/
theorem reactionLoop_done (fuel i : Nat) : reactionLoop fuel i true = i := by
  cases fuel <;> simp [reactionLoop]

/-- Characterization of the loop counter: started below the budget with
`done = False`, the loop counts up to `experimental_budget + 1 = 11`
(or runs out of fuel first). -/
theorem reactionLoop_false (fuel : Nat) :
    ∀ i, i ≤ experimental_budget →
      reactionLoop fuel i false = min (i + fuel) (experimental_budget + 1) := by
  have heb : experimental_budget = 10 := rfl
  induction fuel with
  | zero => intro i hi; simp [reactionLoop]; omega
  | succ n ih =>
      intro i hi
      simp only [reactionLoop, if_neg Bool.false_ne_true]
      rcases Nat.lt_or_ge i experimental_budget with h | h
      · rw [decide_eq_false (by omega : ¬ experimental_budget < i + 1)]
        rw [ih (i + 1) (by omega)]
        omega
      · rw [decide_eq_true (by omega : experimental_budget < i + 1)]
        rw [reactionLoop_done]
        omega

end ReactionTutorial

namespace ReactionTutorial

/-- Claim C3: SMOKE_TEST shortens every optimization loop: each of the
three BNH `run` invocations uses `n_iterations = 1` under SMOKE_TEST
instead of the `50` used otherwise; the reaction notebook's ask/tell
loop executes `0` bodies under SMOKE_TEST (the loop is skipped) and
exactly `11` bodies otherwise (for any sufficient fuel), so the smoke
run performs fewer iterations and the loop control terminates. -/
theorem smoke_test_budgets :
    BnhBenchmark.bnh_random_n_iterations true = 1 ∧
    BnhBenchmark.bnh_mobo_n_iterations true = 1 ∧
    BnhBenchmark.bnh_constrained_n_iterations true = 1 ∧
    BnhBenchmark.bnh_random_n_iterations false = 50 ∧
    BnhBenchmark.bnh_mobo_n_iterations false = 50 ∧
    BnhBenchmark.bnh_constrained_n_iterations false = 50 ∧
    (∀ fuel, reactionLoop fuel 0 true = 0) ∧
    (∀ fuel, reactionLoop (fuel + 11) 0 false = 11) ∧
    (∀ fuel, reactionLoop fuel 0 true < reactionLoop (fuel + 11) 0 false) := by
  have h11 : ∀ fuel, reactionLoop (fuel + 11) 0 false = 11 := by
    intro fuel
    rw [reactionLoop_false (fuel + 11) 0 (by simp [experimental_budget])]
    simp [experimental_budget]
  refine ⟨rfl, rfl, rfl, rfl, rfl, rfl, fun fuel => reactionLoop_done fuel 0,
    h11, fun fuel => ?_⟩
  rw [reactionLoop_done, h11]
  omega

end ReactionTutorial

namespace BnhBenchmark

/-- Claim C4: the BNH `hypervolume` metric calls the external library's
`compute_hypervolume` with reference point `{f1: 140, f2: 50}`; when
the experiments table has a `c1` column, exactly the rows satisfying
`c1 <= 25` and `c2 >= 7.7` are passed, otherwise all rows are passed. -/
theorem hypervolume_filtering {D R : Type}
    (compute_hypervolume : D → List (String → ℚ) → List (String × ℚ) → R)
    (domain : D) (t : Experiments) :
    ("c1" ∈ t.cols →
      hypervolume compute_hypervolume domain t =
        compute_hypervolume domain (t.rows.filter bnhFeasible) bnh_ref_point ∧
      ∀ r, r ∈ t.rows.filter bnhFeasible ↔
        r ∈ t.rows ∧ r "c1" ≤ 25 ∧ 7.7 ≤ r "c2") ∧
    ("c1" ∉ t.cols →
      hypervolume compute_hypervolume domain t =
        compute_hypervolume domain t.rows bnh_ref_point) := by
  constructor
  · intro h
    refine ⟨by simp [hypervolume, h], fun r => ?_⟩
    simp [List.mem_filter, bnhFeasible, and_assoc]
  · intro h
    simp [hypervolume, h]

/-- Witness for C4: on a concrete table with a `c1` column only the
feasible row is passed (the counting stand-in sees 1 row); without the
column both rows are passed. -/
theorem hypervolume_filtering_witness :
    hypervolume chvCount () wBnhExperiments1 = 1 ∧
    hypervolume chvCount () wBnhExperiments2 = 2 := by
  constructor
  · have h := (hypervolume_filtering chvCount () wBnhExperiments1).1
      (by simp [wBnhExperiments1])
    rw [h.1]
    have ha1 : wBnhRow1 "c1" = 10 := by simp [wBnhRow1]
    have ha2 : wBnhRow1 "c2" = 9 := by simp [wBnhRow1]
    have hb1 : wBnhRow2 "c1" = 100 := by simp [wBnhRow2]
    have hf1 : bnhFeasible wBnhRow1 = true := by
      simp only [bnhFeasible, ha1, ha2, Bool.and_eq_true, decide_eq_true_eq]
      norm_num
    have hf2 : bnhFeasible wBnhRow2 = false := by
      simp only [bnhFeasible, hb1]
      rw [decide_eq_false (by norm_num : ¬((100 : ℚ) ≤ 25))]
      simp
    simp [wBnhExperiments1, List.filter_cons, hf1, hf2, chvCount]
  · rw [(hypervolume_filtering chvCount () wBnhExperiments2).2
      (by simp [wBnhExperiments2])]
    norm_num [chvCount, wBnhExperiments2]

end BnhBenchmark

namespace ReactionTutorial

theorem reaction_getT :
    reactionDomain.inputs_get_by_key "Temperature" =
      some (.continuous "Temperature" 0 60) := rfl

theorem reaction_getV :
    reactionDomain.inputs_get_by_key "Solvent Volume" =
      some (.continuous "Solvent Volume" 20 90) := rfl

theorem reaction_getS :
    reactionDomain.inputs_get_by_key "Solvent Type" =
      some (.categorical "Solvent Type" solventCategories) := rfl

theorem reaction_getY :
    reactionDomain.outputs_get_by_key "Yield" = some ⟨"Yield"⟩ := rfl

/-- The density column lookup succeeds on every declared solvent and
returns `densityVal`. -/
theorem lookup_density_of_mem (s : String) (hs : s ∈ solventCategories) :
    (solvent_descriptors.density).lookup s = some (densityVal s) := by
  simp only [solventCategories, List.mem_cons, List.mem_singleton,
    List.not_mem_nil, or_false] at hs
  rcases hs with rfl | rfl | rfl <;> rfl

/-- Normal form of the vectorized density lookup over known solvents. -/
theorem lookupDensities_valid :
    ∀ ss : List String, (∀ s ∈ ss, s ∈ solventCategories) →
      lookupDensitiesWith solvent_descriptors.density ss =
        some (ss.map densityVal) := by
  intro ss
  induction ss with
  | nil => intro _; simp [lookupDensitiesWith]
  | cons s ss ih =>
      intro h
      have hs := h s (by simp)
      rw [List.map_cons]
      simp only [lookupDensitiesWith, lookup_density_of_mem s hs,
        ih fun x hx => h x (by simp [hx]), Option.bind_eq_bind,
        Option.some_bind, Option.pure_def]

/-- Zipping equal-length per-row columns back into rows is a rowwise map. -/
theorem mkRows_map (f1 f2 f3 : CandRow → ℝ) (f4 : CandRow → String) :
    ∀ cs : List CandRow,
      mkRows (cs.map f1) (cs.map f2) (cs.map f3) (cs.map f4) =
        cs.map fun r => ⟨f1 r, f2 r, f3 r, f4 r, 1⟩ := by
  intro cs
  induction cs with
  | nil => simp [mkRows]
  | cons c cs ih => simp [mkRows, ih]

/-- The column pipeline of `create_experiments` on the candidates path,
collapsed to a rowwise map. -/
theorem rows_norm (A B : ℝ) :
    ∀ cs : List CandRow,
      mkRows (cs.map (·.Temperature)) (cs.map (·.SolventVolume))
        (List.zipWith (fun a b => 0.5 * a + 0.5 * a * b)
          (List.zipWith (fun a b => A * a + B * b)
            ((cs.map (·.Temperature)).map calc_Tfact)
            (List.zipWith (fun x tf => (1.5 - x) * (tf + 0.5) / 2)
              ((cs.map (·.SolventType)).map densityVal)
              ((cs.map (·.Temperature)).map calc_Tfact)))
          ((cs.map (·.SolventVolume)).map calc_volume_fact))
        (cs.map (·.SolventType)) = cs.map (expRowOf A B) := by
  intro cs
  induction cs with
  | nil => simp [mkRows]
  | cons c cs ih =>
      simp only [List.map_cons, List.zipWith_cons_cons, mkRows]
      rw [ih]
      rfl

/-- Normal form of `create_experiments` on the candidates path: for the
reaction domain and candidates whose solvents are declared categories,
the call succeeds and produces exactly one output row per candidate
row, computed rowwise by `expRowOf`. -/
theorem create_experiments_candidates (rng : RNG) (n : Nat) (A B : ℝ)
    (cs : List CandRow) (h : ∀ r ∈ cs, r.SolventType ∈ solventCategories) :
    create_experiments reactionDomain rng n A B (some cs) =
      some ⟨cs.map (expRowOf A B), List.range cs.length⟩ := by
  have hss : ∀ s ∈ cs.map (·.SolventType), s ∈ solventCategories := by
    intro s hsm
    rcases List.mem_map.mp hsm with ⟨r, hr, rfl⟩
    exact h r hr
  simp only [create_experiments, create_experimentsWith, reaction_getT,
    reaction_getV, reaction_getS, reaction_getY, Option.bind_eq_bind,
    Option.some_bind, Option.pure_def, calc_rhofactWith,
    lookupDensities_valid _ hss, Option.map_some', Option.some_bind]
  rw [rows_norm]

end ReactionTutorial

namespace ReactionTutorial

/-- The code's temperature factor equals the claim's closed form. -/
theorem calc_Tfact_eq_spec (T : ℝ) : calc_Tfact T = specTfact T := by
  simp only [calc_Tfact, calc_TfactWith, specTfact, e0, e60, de, T0, T1]
  norm_num

/-- The code's volume factor equals the claim's closed form. -/
theorem calc_volume_fact_eq_spec (V : ℝ) : calc_volume_fact V = specVfact V :=
  rfl

/-- The density table agrees with the claim's density values on the
declared solvents. -/
theorem densityVal_eq_spec (s : String) (hs : s ∈ solventCategories) :
    densityVal s = specDensity s := by
  simp only [solventCategories, List.mem_cons, List.mem_singleton,
    List.not_mem_nil, or_false] at hs
  rcases hs with rfl | rfl | rfl <;> rfl

/-- Rowwise yield identity: the code's two-step update
`y = A*Tfact + B*rhofact; y = 0.5*y + 0.5*y*Vfact` equals the claim's
`0.5*y*(1 + Vfact)` at the defaults `A=25`, `B=90`. -/
theorem expRowOf_yield_spec (r : CandRow)
    (hr : r.SolventType ∈ solventCategories) :
    (expRowOf 25 90 r).Yield =
      specYieldC1 r.Temperature r.SolventVolume r.SolventType := by
  simp only [expRowOf, specYieldC1, specRhofact, calc_Tfact_eq_spec,
    calc_volume_fact_eq_spec, densityVal_eq_spec r.SolventType hr]
  ring

/-- Claim C1: for every candidates DataFrame over the reaction domain
whose solvents are declared categories, `evaluate_experiments` (through
`create_experiments` with defaults `A=25`, `B=90`) succeeds, and the
Yield of each produced row equals
`0.5*y*(1+Vfact)` with `y = 25*Tfact + 90*rhofact` and the factors as
given in the claim (`specYieldC1`). -/
theorem evaluate_experiments_yield_formula (rng : RNG) (cs : List CandRow)
    (hval : ∀ r ∈ cs, r.SolventType ∈ solventCategories) :
    ∃ t, evaluate_experiments reactionDomain rng cs = some t ∧
      List.Forall₂
        (fun r er => er.Yield =
          specYieldC1 r.Temperature r.SolventVolume r.SolventType)
        cs t.rows := by
  refine ⟨⟨cs.map (expRowOf 25 90), List.range cs.length⟩,
    create_experiments_candidates rng 100 25 90 cs hval, ?_⟩
  show List.Forall₂ _ cs (cs.map (expRowOf 25 90))
  rw [List.forall₂_map_right_iff, List.forall₂_same]
  exact fun r hr => expRowOf_yield_spec r (hval r hr)

/-- Witness for C1 at a concrete one-row candidates table. -/
theorem evaluate_experiments_yield_formula_witness :
    ∃ t, evaluate_experiments reactionDomain wRNG [wRow] = some t ∧
      List.Forall₂
        (fun r er => er.Yield =
          specYieldC1 r.Temperature r.SolventVolume r.SolventType)
        [wRow] t.rows :=
  evaluate_experiments_yield_formula wRNG [wRow] (by
    intro r hr
    rw [List.mem_singleton] at hr
    subst hr
    decide)

end ReactionTutorial

namespace ReactionTutorial

/-- The denominator `de = e60 - e0` is positive. -/
theorem de_pos : (0 : ℝ) < de := by
  have h : ((T1 + 0) / T0 : ℝ) < (T1 + 60) / T0 := by
    simp only [T0, T1]
    norm_num
  have := Real.exp_lt_exp.mpr h
  simp only [de, e60, e0]
  linarith

/-- Claim C9: `calc_Tfact` is strictly increasing, vanishes at `T = 0`,
equals `1` at `T = 60`, and therefore maps the declared temperature
range `[0, 60]` into `[0, 1]`. -/
theorem calc_Tfact_monotone_bounds :
    StrictMono calc_Tfact ∧ calc_Tfact 0 = 0 ∧ calc_Tfact 60 = 1 ∧
      ∀ T : ℝ, 0 ≤ T → T ≤ 60 → calc_Tfact T ∈ Set.Icc (0 : ℝ) 1 := by
  have hT0 : (0 : ℝ) < T0 := by simp only [T0]; norm_num
  have hmono : StrictMono calc_Tfact := by
    intro a b hab
    simp only [calc_Tfact, calc_TfactWith]
    refine (div_lt_div_iff_of_pos_right de_pos).mpr ?_
    refine sub_lt_sub_right (Real.exp_lt_exp.mpr ?_) e0
    exact (div_lt_div_iff_of_pos_right hT0).mpr (add_lt_add_left hab T1)
  have h0 : calc_Tfact 0 = 0 := by
    simp [calc_Tfact, calc_TfactWith, e0]
  have h60 : calc_Tfact 60 = 1 := by
    simp only [calc_Tfact, calc_TfactWith]
    rw [show Real.exp ((T1 + 60) / T0) - e0 = de from rfl]
    exact div_self (ne_of_gt de_pos)
  refine ⟨hmono, h0, h60, fun T hT1 hT2 => Set.mem_Icc.mpr ⟨?_, ?_⟩⟩
  · rw [← h0]
    exact hmono.monotone hT1
  · rw [← h60]
    exact hmono.monotone hT2

/-- Witness for C9 at the concrete temperature `30`. -/
theorem calc_Tfact_monotone_bounds_witness :
    calc_Tfact 30 ∈ Set.Icc (0 : ℝ) 1 :=
  calc_Tfact_monotone_bounds.2.2.2 30 (by norm_num) (by norm_num)

end ReactionTutorial

namespace ReactionTutorial

/-- Lemma: `mkRows` on four equal-length columns produces that many rows. -/
theorem mkRows_length_eq : ∀ (T V y : List ℝ) (s : List String) (n : Nat),
    T.length = n → V.length = n → y.length = n → s.length = n →
    (mkRows T V y s).length = n := by
  intro T
  induction T with
  | nil =>
      intro V y s n h1 _ _ _
      simp only [List.length_nil] at h1
      subst h1
      simp [mkRows]
  | cons a T ih =>
      intro V y s n h1 h2 h3 h4
      cases V with
      | nil => simp at h1 h2; omega
      | cons b V =>
          cases y with
          | nil => simp at h1 h3; omega
          | cons c y =>
              cases s with
              | nil => simp at h1 h4; omega
              | cons d s =>
                  cases n with
                  | zero => simp at h1
                  | succ m =>
                      simp only [mkRows, List.length_cons] at *
                      exact Nat.succ_inj.mpr
                        (ih V y s m (by omega) (by omega) (by omega) (by omega))

/-- The density lookup preserves the number of rows. -/
theorem lookupDensitiesWith_length (tbl : List (String × ℝ)) :
    ∀ (ss : List String) (ds : List ℝ),
      lookupDensitiesWith tbl ss = some ds → ds.length = ss.length := by
  intro ss
  induction ss with
  | nil => intro ds h; simp [lookupDensitiesWith] at h; simp [← h]
  | cons s ss ih =>
      intro ds h
      simp only [lookupDensitiesWith, Option.bind_eq_bind, Option.pure_def,
        Option.bind_eq_some, Option.some.injEq] at h
      obtain ⟨d, _, ds0, hds0, rfl⟩ := h
      simp [ih ds0 hds0]

/-- The solvent-picking comprehension yields one solvent per index. -/
theorem buildSolvents_length (rng : RNG) (cats : List String) :
    ∀ (ks : List Nat) (ss : List String),
      buildSolvents rng cats ks = some ss → ss.length = ks.length := by
  intro ks
  induction ks with
  | nil => intro ss h; simp [buildSolvents] at h; simp [← h]
  | cons k ks ih =>
      intro ss h
      simp only [buildSolvents, Option.bind_eq_bind, Option.pure_def,
        Option.bind_eq_some, Option.some.injEq] at h
      obtain ⟨c, _, ss0, hss0, rfl⟩ := h
      simp [ih ss0 hss0]

/-- Every row built by `mkRows` carries `valid_Yield = 1` (the
`np.ones` column). -/
theorem mkRows_valid : ∀ (T V y : List ℝ) (s : List String) (r : ExpRow),
    r ∈ mkRows T V y s → r.valid_Yield = 1 := by
  intro T
  induction T with
  | nil => intro V y s r h; simp [mkRows] at h
  | cons a T ih =>
      intro V y s r h
      cases V with
      | nil => simp [mkRows] at h
      | cons b V =>
          cases y with
          | nil => simp [mkRows] at h
          | cons c y =>
              cases s with
              | nil => simp [mkRows] at h
              | cons d s =>
                  simp only [mkRows, List.mem_cons] at h
                  rcases h with rfl | h
                  · rfl
                  · exact ih V y s r h

/-- Each field of a row built by `mkRows` comes from the corresponding
column. -/
theorem mkRows_mem : ∀ (T V y : List ℝ) (s : List String) (r : ExpRow),
    r ∈ mkRows T V y s →
    r.Temperature ∈ T ∧ r.SolventVolume ∈ V ∧ r.SolventType ∈ s := by
  intro T
  induction T with
  | nil => intro V y s r h; simp [mkRows] at h
  | cons a T ih =>
      intro V y s r h
      cases V with
      | nil => simp [mkRows] at h
      | cons b V =>
          cases y with
          | nil => simp [mkRows] at h
          | cons c y =>
              cases s with
              | nil => simp [mkRows] at h
              | cons d s =>
                  simp only [mkRows, List.mem_cons] at h
                  rcases h with rfl | h
                  · simp
                  · have := ih V y s r h
                    simp [this.1, this.2.1, this.2.2]

end ReactionTutorial

namespace ReactionTutorial

/-- Shape of the table built by the common tail of
`create_experiments`, given three equal-length input columns. -/
theorem table_tail_shape (tbl : List (String × ℝ)) (T V : List ℝ)
    (stypes : List String) (A B : ℝ) (n : Nat) (t : ExpTable)
    (hT : T.length = n) (hV : V.length = n) (hS : stypes.length = n)
    (h : ((calc_rhofactWith tbl stypes (T.map calc_Tfact)).bind fun rhofact =>
        some
          { rows :=
              mkRows T V
                (List.zipWith (fun a b => 0.5 * a + 0.5 * a * b)
                  (List.zipWith (fun a b => A * a + B * b)
                    (T.map calc_Tfact) rhofact)
                  (V.map calc_volume_fact)) stypes,
            index := List.range n } : Option ExpTable) = some t) :
    t.rows.length = n ∧ t.index = List.range t.rows.length ∧
      ∀ r ∈ t.rows, r.valid_Yield = 1 := by
  rcases hrf : calc_rhofactWith tbl stypes (T.map calc_Tfact) with _ | rf
  · rw [hrf] at h; simp at h
  rw [hrf] at h
  simp only [Option.some_bind, Option.some.injEq] at h
  subst h
  obtain ⟨xs, hxs, hzip⟩ := Option.map_eq_some'.mp hrf
  have hxslen : xs.length = n := by
    rw [lookupDensitiesWith_length tbl stypes xs hxs, hS]
  have hrflen : rf.length = n := by
    rw [← hzip]
    simp [List.length_zipWith, hxslen, List.length_map, hT]
  have hrows : (mkRows T V
      (List.zipWith (fun a b => 0.5 * a + 0.5 * a * b)
        (List.zipWith (fun a b => A * a + B * b) (T.map calc_Tfact) rf)
        (V.map calc_volume_fact)) stypes).length = n := by
    apply mkRows_length_eq _ _ _ _ n hT hV _ hS
    simp [List.length_zipWith, List.length_map, hT, hV, hrflen]
  refine ⟨hrows, ?_, ?_⟩
  · simp only [hrows]
  · intro r hr
    exact mkRows_valid _ _ _ _ r hr

end ReactionTutorial

namespace ReactionTutorial

/-- Claim C8: every DataFrame returned by `create_experiments` has
exactly `n` rows, `n` being `nsamples` without candidates and
`len(candidates)` with them; its index is the `RangeIndex` `0..n-1`;
its `valid_Yield` column is `1` in every row; and `create_candidates`
returns the same table with the `Yield` and `valid_Yield` columns
removed. -/
theorem create_experiments_table_shape (domain : Domain) (rng : RNG)
    (nsamples : Nat) (A B : ℝ) (candidates : Option (List CandRow))
    (t : ExpTable)
    (h : create_experiments domain rng nsamples A B candidates = some t) :
    t.rows.length =
      (match candidates with
       | none => nsamples
       | some cs => cs.length) ∧
    t.index = List.range t.rows.length ∧
    (∀ r ∈ t.rows, r.valid_Yield = 1) ∧
    create_candidates domain rng nsamples =
      (create_experiments domain rng nsamples 25 90 none).map
        dropYieldColumns := by
  simp only [create_experiments, create_experimentsWith,
    Option.bind_eq_bind] at h
  rcases hTf : domain.inputs_get_by_key "Temperature" with _ | Tf <;>
    rw [hTf] at h
  · simp at h
  rcases hVf : domain.inputs_get_by_key "Solvent Volume" with _ | Vf <;>
    rw [hVf] at h
  · simp at h
  rcases hSf : domain.inputs_get_by_key "Solvent Type" with _ | typef <;>
    rw [hSf] at h
  · simp at h
  rcases hYf : domain.outputs_get_by_key "Yield" with _ | yf <;>
    rw [hYf] at h
  · simp at h
  cases candidates with
  | some cs =>
      simp only [Option.pure_def, Option.some_bind] at h
      have := table_tail_shape solvent_descriptors.density
        (cs.map (·.Temperature)) (cs.map (·.SolventVolume))
        (cs.map (·.SolventType)) A B cs.length t
        (by simp) (by simp) (by simp) h
      exact ⟨this.1, this.2.1, this.2.2, rfl⟩
  | none =>
      simp only [Option.pure_def, Option.some_bind] at h
      rcases hlo : Tf.lower_bound with _ | lowT <;> rw [hlo] at h
      · simp at h
      rcases hhi : Tf.upper_bound with _ | highT <;> rw [hhi] at h
      · simp at h
      rcases hloV : Vf.lower_bound with _ | lowV <;> rw [hloV] at h
      · simp at h
      rcases hhiV : Vf.upper_bound with _ | highV <;> rw [hhiV] at h
      · simp at h
      rcases hcats : typef.categories with _ | cats <;> rw [hcats] at h
      · simp at h
      simp only [Option.pure_def, Option.some_bind] at h
      rcases hbs : buildSolvents rng cats (List.range nsamples) with _ | ss <;>
        rw [hbs] at h
      · simp at h
      simp only [Option.pure_def, Option.some_bind] at h
      have hsslen : ss.length = nsamples := by
        rw [buildSolvents_length rng cats (List.range nsamples) ss hbs]
        simp
      have := table_tail_shape solvent_descriptors.density
        ((List.range nsamples).map fun k => rng.uniform lowT highT 0 k)
        ((List.range nsamples).map fun k => rng.uniform lowV highV 1 k)
        ss A B nsamples t (by simp) (by simp) hsslen h
      exact ⟨this.1, this.2.1, this.2.2, rfl⟩

end ReactionTutorial

namespace ReactionTutorial

/-- Witness for C8 at a concrete one-row candidates table. -/
theorem create_experiments_table_shape_witness :
    ∃ t, create_experiments reactionDomain wRNG 7 25 90 (some [wRow]) =
        some t ∧ t.rows.length = 1 ∧ t.index = List.range t.rows.length ∧
      ∀ r ∈ t.rows, r.valid_Yield = 1 := by
  have h := create_experiments_candidates wRNG 7 25 90 [wRow]
    (by intro r hr; rw [List.mem_singleton] at hr; subst hr; decide)
  have hc := create_experiments_table_shape reactionDomain wRNG 7 25 90
    (some [wRow]) _ h
  exact ⟨_, h, hc.1, hc.2.1, hc.2.2.1⟩

/-- The solvent-picking comprehension succeeds when every drawn index
is in range, and picks only declared categories. -/
theorem buildSolvents_ok (rng : RNG) (cats : List String) :
    ∀ ks : List Nat, (∀ k ∈ ks, rng.randint 0 3 k < cats.length) →
      ∃ ss, buildSolvents rng cats ks = some ss ∧ ss.length = ks.length ∧
        ∀ s ∈ ss, s ∈ cats := by
  intro ks
  induction ks with
  | nil => intro _; exact ⟨[], rfl, rfl, by simp⟩
  | cons k ks ih =>
      intro h
      obtain ⟨ss, hss, hlen, hmem⟩ := ih fun x hx => h x (by simp [hx])
      have hk := h k (by simp)
      refine ⟨cats[rng.randint 0 3 k] :: ss, ?_, by simp [hlen], ?_⟩
      · simp only [buildSolvents, List.getElem?_eq_getElem hk, hss,
          Option.bind_eq_bind, Option.some_bind, Option.pure_def]
      · intro s hs
        rcases List.mem_cons.mp hs with rfl | hs2
        · exact List.getElem_mem hk
        · exact hmem s hs2

/-- Claim C10: for every random draw whose uniform draws respect their
half-open ranges and whose category indices are in `[0, 3)` (numpy's
contract for `uniform` and `randint`), every candidate row produced by
`create_candidates` lies inside the declared reaction domain. -/
theorem create_candidates_in_domain (rng : RNG) (n : Nat)
    (hU : ∀ lo hi call k, lo < hi →
      lo ≤ rng.uniform lo hi call k ∧ rng.uniform lo hi call k < hi)
    (hR : ∀ k, rng.randint 0 3 k < 3) :
    ∃ ct, create_candidates reactionDomain rng n = some ct ∧
      ∀ r ∈ ct.rows, 0 ≤ r.Temperature ∧ r.Temperature ≤ 60 ∧
        20 ≤ r.SolventVolume ∧ r.SolventVolume ≤ 90 ∧
        r.SolventType ∈ solventCategories := by
  obtain ⟨ss, hss, hsslen, hssmem⟩ := buildSolvents_ok rng solventCategories
    (List.range n) (by intro k _; exact hR k)
  have hex : ∃ t, create_experiments reactionDomain rng n 25 90 none =
      some t := by
    simp only [create_experiments, create_experimentsWith, reaction_getT,
      reaction_getV, reaction_getS, reaction_getY, Option.bind_eq_bind,
      Option.some_bind, InputFeature.lower_bound, InputFeature.upper_bound,
      InputFeature.categories, hss, Option.pure_def, calc_rhofactWith,
      lookupDensities_valid _ hssmem, Option.map_some']
    exact ⟨_, rfl⟩
  obtain ⟨t, ht⟩ := hex
  have ht2 := ht
  simp only [create_experiments, create_experimentsWith, reaction_getT,
    reaction_getV, reaction_getS, reaction_getY, Option.bind_eq_bind,
    Option.some_bind, InputFeature.lower_bound, InputFeature.upper_bound,
    InputFeature.categories, hss, Option.pure_def, calc_rhofactWith,
    lookupDensities_valid _ hssmem, Option.map_some',
    Option.some.injEq] at ht
  refine ⟨dropYieldColumns t, ?_, ?_⟩
  · simp only [create_candidates]
    rw [ht2]
    rfl
  intro r hr
  simp only [dropYieldColumns, List.mem_map] at hr
  obtain ⟨er, her, rfl⟩ := hr
  rw [← ht] at her
  obtain ⟨hTm, hVm, hSm⟩ := mkRows_mem _ _ _ _ er her
  rw [List.mem_map] at hTm hVm
  obtain ⟨k1, _, hk1⟩ := hTm
  obtain ⟨k2, _, hk2⟩ := hVm
  have h1 := hU 0 60 0 k1 (by norm_num)
  have h2 := hU 20 90 1 k2 (by norm_num)
  rw [hk1] at h1
  rw [hk2] at h2
  exact ⟨h1.1, le_of_lt h1.2, h2.1, le_of_lt h2.2, hssmem _ hSm⟩

/-- Witness for C10 with a concrete in-range random source. -/
theorem create_candidates_in_domain_witness :
    ∃ ct, create_candidates reactionDomain wRNG 3 = some ct ∧
      ∀ r ∈ ct.rows, 0 ≤ r.Temperature ∧ r.Temperature ≤ 60 ∧
        20 ≤ r.SolventVolume ∧ r.SolventVolume ≤ 90 ∧
        r.SolventType ∈ solventCategories :=
  create_candidates_in_domain wRNG 3
    (by intro lo hi call k h; exact ⟨le_refl lo, h⟩)
    (by intro k; simp [wRNG])

end ReactionTutorial

namespace ReactionTutorial

/-- Claim C5: the reaction notebook's optimization loop follows the
ask/tell pattern: under the library's contract that `ask n` returns `n`
candidates inside the domain, the loop's event trace (for any fuel,
counter, flag and strategy state) consists of adjacent pairs — an
`ask(1)` proposing exactly one candidate immediately followed by a
`tell` of precisely the simulator's evaluation of that candidate — so
no proposed candidate is left without a subsequent `tell`. -/
theorem sobo_loop_ask_tell_pattern {σ : Type} (S : SoboStrategy σ)
    (rng : RNG)
    (hlen : ∀ n st, (S.ask n st).length = n)
    (hval : ∀ n st r, r ∈ S.ask n st → r.SolventType ∈ solventCategories) :
    ∀ (fuel i : Nat) (done : Bool) (s : σ),
      ∃ tr, soboLoopTrace S rng reactionDomain fuel i done s = some tr ∧
        AskTellAlt rng reactionDomain tr := by
  intro fuel
  induction fuel with
  | zero => intro i done s; exact ⟨[], rfl, .nil⟩
  | succ f ih =>
      intro i done s
      cases done with
      | true => exact ⟨[], by simp [soboLoopTrace], .nil⟩
      | false =>
          have heval : evaluate_experiments reactionDomain rng (S.ask 1 s) =
              some ⟨(S.ask 1 s).map (expRowOf 25 90),
                List.range (S.ask 1 s).length⟩ :=
            create_experiments_candidates rng 100 25 90 (S.ask 1 s)
              fun r hr => hval 1 s r hr
          obtain ⟨rest, hrest, halt⟩ := ih (i + 1)
            (decide (experimental_budget < i + 1))
            (S.tell s ⟨(S.ask 1 s).map (expRowOf 25 90),
              List.range (S.ask 1 s).length⟩)
          refine ⟨LoopEvent.askEv (S.ask 1 s) ::
            LoopEvent.tellEv ⟨(S.ask 1 s).map (expRowOf 25 90),
              List.range (S.ask 1 s).length⟩ :: rest, ?_, ?_⟩
          · simp [soboLoopTrace, heval, hrest]
          · exact .step _ _ _ (hlen 1 s) heval halt

/-- Witness for C5 with a concrete strategy, random source and fuel. -/
theorem sobo_loop_ask_tell_pattern_witness :
    ∃ tr, soboLoopTrace trivStrategy wRNG reactionDomain 20 0 false () =
        some tr ∧ AskTellAlt wRNG reactionDomain tr :=
  sobo_loop_ask_tell_pattern trivStrategy wRNG
    (by intro n st; simp [trivStrategy])
    (by
      intro n st r hr
      simp only [trivStrategy] at hr
      rw [List.eq_of_mem_replicate hr]
      decide)
    20 0 false ()

end ReactionTutorial

namespace ReactionTutorial

/-- Bind chains only propagate errors: errors of `x >>= f` come from
`x` or from `f`. -/
theorem errFrom_bind {ε α β : Type} {Q : ε → Prop} {x : Except ε α}
    {f : α → Except ε β} (hx : ErrFrom Q x) (hf : ∀ a, ErrFrom Q (f a)) :
    ErrFrom Q (x >>= f) := by
  intro e he
  cases x with
  | error e2 =>
      have hb : (Except.error e2 : Except ε α) >>= f = .error e2 := rfl
      rw [hb] at he
      injection he with h
      exact h ▸ hx e2 rfl
  | ok a =>
      have hb : (Except.ok a : Except ε α) >>= f = f a := rfl
      rw [hb] at he
      exact hf a e he

/-- Lemma: `Except.map` introduces no errors. -/
theorem errFrom_map {ε α β : Type} {Q : ε → Prop} {x : Except ε α}
    (g : α → β) (hx : ErrFrom Q x) : ErrFrom Q (x.map g) := by
  intro e he
  cases x with
  | error e2 =>
      have hb : (Except.error e2 : Except ε α).map g = .error e2 := rfl
      rw [hb] at he
      injection he with h
      exact h ▸ hx e2 rfl
  | ok a =>
      have hb : (Except.ok a : Except ε α).map g = .ok (g a) := rfl
      rw [hb] at he
      simp at he

/-- Lemma: `pure` raises nothing. -/
theorem errFrom_pure {ε α : Type} {Q : ε → Prop} (a : α) :
    ErrFrom Q (pure a : Except ε α) := by
  intro e he
  simp [pure, Except.pure] at he

/-- Errors of the density lookup chain come from the environment. -/
theorem lookupDensitiesE_errFrom {ε : Type} (env : SimEnv ε) :
    ∀ ss, ErrFrom env.raises (lookupDensitiesE env ss) := by
  intro ss
  induction ss with
  | nil => intro e he; simp [lookupDensitiesE] at he
  | cons s ss ih =>
      have hb : lookupDensitiesE env (s :: ss) =
          env.getDensity s >>= fun d =>
            lookupDensitiesE env ss >>= fun ds => pure (d :: ds) := rfl
      rw [hb]
      exact errFrom_bind (fun e h => Or.inr (Or.inr (Or.inl ⟨s, h⟩)))
        fun d => errFrom_bind ih fun ds => errFrom_pure _

/-- Errors of `calc_rhofact` come from the environment. -/
theorem calc_rhofactE_errFrom {ε : Type} (env : SimEnv ε)
    (ss : List String) (tfs : List ℝ) :
    ErrFrom env.raises (calc_rhofactE env ss tfs) :=
  errFrom_map _ (lookupDensitiesE_errFrom env ss)

/-- Errors of the solvent-picking chain come from the environment. -/
theorem buildSolventsE_errFrom {ε : Type} (env : SimEnv ε)
    (cats : List String) :
    ∀ ks, ErrFrom env.raises (buildSolventsE env cats ks) := by
  intro ks
  induction ks with
  | nil => intro e he; simp [buildSolventsE] at he
  | cons k ks ih =>
      have hb : buildSolventsE env cats (k :: ks) =
          env.catAt cats (env.randint 0 3 k) >>= fun c =>
            buildSolventsE env cats ks >>= fun cs => pure (c :: cs) := rfl
      rw [hb]
      refine errFrom_bind (fun e h => ?_) fun c =>
        errFrom_bind ih fun cs => errFrom_pure _
      exact Or.inr (Or.inr (Or.inr (Or.inr (Or.inr (Or.inr
        ⟨cats, env.randint 0 3 k, h⟩)))))

/-- Errors of `create_experiments` come from the environment. -/
theorem create_experimentsE_errFrom {ε : Type} (env : SimEnv ε)
    (n : Nat) (A B : ℝ) (c : Option (List CandRow)) :
    ErrFrom env.raises (create_experimentsE env n A B c) := by
  unfold create_experimentsE
  refine errFrom_bind (fun e h => Or.inl ⟨"Temperature", h⟩) fun Tf => ?_
  refine errFrom_bind (fun e h => Or.inl ⟨"Solvent Volume", h⟩) fun Vf => ?_
  refine errFrom_bind (fun e h => Or.inl ⟨"Solvent Type", h⟩) fun typef => ?_
  refine errFrom_bind (fun e h => Or.inr (Or.inl ⟨"Yield", h⟩)) fun yf => ?_
  refine errFrom_bind ?_ fun tup => ?_
  · cases c with
    | none =>
        refine errFrom_bind
          (fun e h => Or.inr (Or.inr (Or.inr (Or.inl ⟨Tf, h⟩))))
          fun lowT => ?_
        refine errFrom_bind
          (fun e h => Or.inr (Or.inr (Or.inr (Or.inr (Or.inl ⟨Tf, h⟩)))))
          fun highT => ?_
        refine errFrom_bind
          (fun e h => Or.inr (Or.inr (Or.inr (Or.inl ⟨Vf, h⟩))))
          fun lowV => ?_
        refine errFrom_bind
          (fun e h => Or.inr (Or.inr (Or.inr (Or.inr (Or.inl ⟨Vf, h⟩)))))
          fun highV => ?_
        refine errFrom_bind
          (fun e h =>
            Or.inr (Or.inr (Or.inr (Or.inr (Or.inr (Or.inl ⟨typef, h⟩))))))
          fun cats => ?_
        exact errFrom_bind (buildSolventsE_errFrom env cats _)
          fun ss => errFrom_pure _
    | some cs => exact errFrom_pure _
  · obtain ⟨n2, T2, V2, st2⟩ := tup
    exact errFrom_bind (calc_rhofactE_errFrom env _ _)
      fun rf => errFrom_pure _

/-- Every fallible computation is `ok` or carries an environment
error. -/
theorem except_ok_or_raises {ε α : Type} {Q : ε → Prop} (x : Except ε α)
    (h : ErrFrom Q x) :
    (∃ v, x = .ok v) ∨ (∃ e, x = .error e ∧ Q e) := by
  cases x with
  | ok v => exact Or.inl ⟨v, rfl⟩
  | error e => exact Or.inr ⟨e, rfl, h e rfl⟩

/-- Claim C7: no repository-defined function implements error
recovery: the pure helpers always return a value; each fallible
function either returns a value or returns, unchanged, an error raised
by an underlying call (no catch, transform, or fallback branch); and
an error in the very first underlying call surfaces as-is. -/
theorem notebook_functions_no_recovery {ε : Type} (env : SimEnv ε) :
    (∀ V : ℝ, ∃ v, calc_volume_fact V = v) ∧
    (∀ T : ℝ, ∃ v, calc_Tfact T = v) ∧
    (∀ ss tfs, (∃ v, calc_rhofactE env ss tfs = .ok v) ∨
      (∃ e, calc_rhofactE env ss tfs = .error e ∧ env.raises e)) ∧
    (∀ n A B c, (∃ t, create_experimentsE env n A B c = .ok t) ∨
      (∃ e, create_experimentsE env n A B c = .error e ∧ env.raises e)) ∧
    (∀ n, (∃ ct, create_candidatesE env n = .ok ct) ∨
      (∃ e, create_candidatesE env n = .error e ∧ env.raises e)) ∧
    (∀ c, (∃ t, evaluate_experimentsE env c = .ok t) ∨
      (∃ e, evaluate_experimentsE env c = .error e ∧ env.raises e)) ∧
    (∀ e n A B c, env.getInput "Temperature" = .error e →
      create_experimentsE env n A B c = .error e) ∧
    (∀ e c, env.getInput "Temperature" = .error e →
      evaluate_experimentsE env c = .error e) := by
  have hprop : ∀ (e : ε) (n : Nat) (A B : ℝ) (c : Option (List CandRow)),
      env.getInput "Temperature" = .error e →
      create_experimentsE env n A B c = .error e := by
    intro e n A B c h
    unfold create_experimentsE
    rw [h]
    rfl
  refine ⟨fun V => ⟨_, rfl⟩, fun T => ⟨_, rfl⟩,
    fun ss tfs => except_ok_or_raises _ (calc_rhofactE_errFrom env ss tfs),
    fun n A B c => except_ok_or_raises _
      (create_experimentsE_errFrom env n A B c),
    fun n => except_ok_or_raises _
      (errFrom_map _ (create_experimentsE_errFrom env n 25 90 none)),
    fun c => except_ok_or_raises _
      (create_experimentsE_errFrom env 100 25 90 (some c)),
    hprop, fun e c h => hprop e 100 25 90 (some c) h⟩

/-- Witness for C7: at a concrete failing environment the error code
`42` of the first lookup surfaces unchanged; a concrete healthy
environment falls under the ok-or-raises disjunction. -/
theorem notebook_functions_no_recovery_witness :
    evaluate_experimentsE envBad [] = .error 42 ∧
    ((∃ t, create_experimentsE envOK 1 25 90 none = .ok t) ∨
      (∃ e, create_experimentsE envOK 1 25 90 none = .error e ∧
        envOK.raises e)) :=
  ⟨(notebook_functions_no_recovery envBad).2.2.2.2.2.2.2 42 [] rfl,
    (notebook_functions_no_recovery envOK).2.2.2.1 1 25 90 none⟩

end ReactionTutorial
